import Mathlib

/-!
Shallow embedding of the task-tracking core of the repository:
the task store (src/db/dao/task_dao.py, src/db/dao/base_dao.py,
src/db/service/task_service.py), the Volcengine video reconciler
(src/ai_services/video/volcengine_video.py), the background scheduler
(src/scripts/task_scheduler.py) and the client-facing router
(src/api/video/router.py).

Conventions of the embedding:
- database rows are in-memory `DbTask` values, the store is a `Db := List DbTask`;
- JSON dicts whose values the code reads as strings are `List (String × String)`
  association lists;
- `datetime.now()` and `time.time()` are passed in as an explicit `now : Nat`;
  `uuid.uuid4().hex` is passed in as an explicit `uuidHex : String`;
- a Python call that can raise is a Lean function returning `Except PyExc _`;
  external I/O (the Ark SDK poll, the download + OSS upload) enters as an
  `Except PyExc _` argument supplied by the environment;
- Python attribute lookup on the DAO classes is modelled by the lists of
  method names actually defined in the class bodies of `TaskDAO` and `BaseDAO`.
-/

/-- A row of the `tasks` table (src/db/models/task.py). -/
structure DbTask where
  task_id : String
  service_type : String
  service_name : String
  status : String
  created_at : Nat
  completed_at : Option Nat
  result : Option (List (String × String))
  error_message : Option String
  task_specific_data : List (String × String)
deriving Repr, DecidableEq

/-- The persisted task store: the `tasks` table as a list of rows. -/
def Db := List DbTask
deriving instance Repr, DecidableEq for Db

/-- A `BusinessException` (src/common/exceptions.py): `code` defaults to
BUSINESS_ERROR when the constructor is called without one. -/
structure BizExc where
  code : String
  message : String
deriving Repr, DecidableEq

/-- Python exception values that flow through the reconciler paths. -/
inductive PyExc where
  | biz (e : BizExc)
  | attributeError (msg : String)
  | other (msg : String)
deriving Repr, DecidableEq

/-- `str(e)` on an exception value: the message it was constructed with. -/
def PyExc.str : PyExc → String
  | .biz e => e.message
  | .attributeError m => m
  | .other m => m

/-- `SELECT ... WHERE task_id = ? LIMIT 1`: first row with the given id
(`db.query(Task).filter(Task.task_id == task_id).first()`). -/
def findTask : Db → String → Option DbTask
  | [], _ => none
  | t :: ts, tid => if t.task_id = tid then some t else findTask ts tid

/-- `dict` assignment `m[k] = v`: override the key when present, append otherwise. -/
def assocSet (m : List (String × String)) (k v : String) : List (String × String) :=
  if (m.lookup k).isSome then m.map (fun p => if p.1 = k then (k, v) else p)
  else m ++ [(k, v)]

/-- Python `dict.update`: every key of `d` is written into `m`. -/
def assocUpdate (m d : List (String × String)) : List (String × String) :=
  d.foldl (fun acc p => assocSet acc p.1 p.2) m

namespace TaskDAO

/-- Methods defined in the class body of `TaskDAO` (src/db/dao/task_dao.py). -/
def ownMethods : List String :=
  ["create_task", "get_task_by_id", "update_task_status", "list_tasks", "delete_task"]

/-- Methods defined in the class body of `BaseDAO` (src/db/dao/base_dao.py),
the base class of `TaskDAO`. -/
def baseMethods : List String :=
  ["get_by_id", "list_records", "create", "update", "delete"]

/-- Python attribute lookup `TaskDAO.<name>` along the MRO `TaskDAO → BaseDAO`. -/
def hasAttr (name : String) : Bool :=
  ownMethods.contains name || baseMethods.contains name

/-- `TaskDAO.get_task_by_id` (src/db/dao/task_dao.py lines 54-66):
delegates to `BaseDAO.get_by_id`, a first-match query on `task_id`. -/
def get_task_by_id (db : Db) (task_id : String) : Option DbTask :=
  findTask db task_id

/-- The field assignments of `TaskDAO.update_task_status`
(src/db/dao/task_dao.py lines 95-111) applied to the row that was read:
unconditionally overwrite `status`, set `result` / `error_message` when the
arguments are not None, merge `task_specific_data` (`dict.update` when the
row already has one, assignment otherwise), and stamp `completed_at` with
`datetime.now()` when the NEW status is terminal. -/
def patchTask (task0 : DbTask) (status : String)
    (result : Option (List (String × String)))
    (error_message : Option String)
    (task_specific_data : Option (List (String × String)))
    (now : Nat) : DbTask :=
  let task1 := { task0 with status := status }
  let task2 := match result with
    | some r => { task1 with result := some r }
    | none => task1
  let task3 := match error_message with
    | some e => { task2 with error_message := some e }
    | none => task2
  let task4 := match task_specific_data with
    | some d =>
        -- `if task.task_specific_data:` — merge when truthy, replace otherwise
        if task3.task_specific_data.isEmpty
        then { task3 with task_specific_data := d }
        else { task3 with task_specific_data := assocUpdate task3.task_specific_data d }
    | none => task3
  if status = "completed" ∨ status = "failed" ∨ status = "error"
  then { task4 with completed_at := some now }
  else task4

/-- `TaskDAO.update_task_status` (src/db/dao/task_dao.py lines 68-115).
Reads the row by id, applies `patchTask`, and commits.  Returns the
updated row, or `none` when the id is absent.  There is no expected-status
argument and no conditional `WHERE status = ?`. -/
def update_task_status (db : Db) (task_id status : String)
    (result : Option (List (String × String)))
    (error_message : Option String)
    (task_specific_data : Option (List (String × String)))
    (now : Nat) : Option DbTask × Db :=
  match findTask db task_id with
  | none => (none, db)
  | some task0 =>
      let task := patchTask task0 status result error_message task_specific_data now
      (some task, db.map (fun t => if t.task_id = task_id then task else t))

end TaskDAO

namespace TaskService

/-- `TaskService.get_task` (src/db/service/task_service.py lines 71-91):
session refresh then `TaskDAO.get_task_by_id`. -/
def get_task (db : Db) (task_id : String) : Option DbTask :=
  TaskDAO.get_task_by_id db task_id

/-- `TaskService.update_task` (src/db/service/task_service.py lines 93-127).
Inside `with transaction(self.db):` it evaluates `TaskDAO.update_task(...)`.
Attribute lookup of `update_task` on class `TaskDAO` precedes any call:
`TaskDAO` defines only `update_task_status` and `BaseDAO` only `update`,
so the lookup raises `AttributeError`; the transaction context manager
rolls back and re-raises, leaving the store unchanged. -/
def update_task (db : Db) (task_id status : String)
    (result : Option (List (String × String)))
    (error_message : Option String)
    (task_specific_data : Option (List (String × String)))
    : Except PyExc (Option DbTask) × Db :=
  if TaskDAO.hasAttr "update_task" then
    -- unreachable: no method of this name exists anywhere on the class
    (.ok none, db)
  else
    (.error (.attributeError "type object TaskDAO has no attribute update_task"), db)

end TaskService

/-- The `status` argument of `TaskService.list_tasks`
(`Optional[Union[str, List[str]]]`): a single status string or a list. -/
inductive StatusArg where
  | one (s : String)
  | many (ss : List String)
deriving Repr, DecidableEq

/-- `if service_type: query = query.filter(col == service_type)` — the filter is
applied only when the argument is truthy (non-None, non-empty string). -/
def applyStrFilter (q : List DbTask) (col : DbTask → String)
    (arg : Option String) : List DbTask :=
  match arg with
  | none => q
  | some s => if s = "" then q else q.filter (fun t => col t == s)

/-- `if status: query = query.filter(Task.status == status)`
(src/db/dao/task_dao.py lines 148-149).  With a list argument SQLAlchemy
renders an equality between the scalar `status` column and the list value;
a row's status (a string) never equals a list, so no row satisfies the
predicate.  The DAO never uses `Task.status.in_(...)`. -/
def applyStatusFilter (q : List DbTask) (arg : Option StatusArg) : List DbTask :=
  match arg with
  | none => q
  | some (.one s) => if s = "" then q else q.filter (fun t => t.status == s)
  | some (.many ss) => if ss.isEmpty then q else q.filter (fun _ => false)

/-- `ORDER BY created_at DESC` — insertion sort, descending on `created_at`. -/
def insertByCreatedDesc (t : DbTask) : List DbTask → List DbTask
  | [] => [t]
  | u :: us =>
      if t.created_at ≥ u.created_at then t :: u :: us
      else u :: insertByCreatedDesc t us

/-- Sort rows by `created_at` descending. -/
def sortByCreatedDesc : List DbTask → List DbTask
  | [] => []
  | t :: ts => insertByCreatedDesc t (sortByCreatedDesc ts)

namespace TaskDAO

/-- `TaskDAO.list_tasks` (src/db/dao/task_dao.py lines 117-151): filter by
truthy `service_type` / `service_name` / `status`, order by `created_at`
descending, then `OFFSET skip LIMIT limit`. -/
def list_tasks (db : Db) (service_type service_name : Option String)
    (status : Option StatusArg) (skip limit : Nat) : List DbTask :=
  let q := applyStrFilter db (fun t => t.service_type) service_type
  let q := applyStrFilter q (fun t => t.service_name) service_name
  let q := applyStatusFilter q status
  ((sortByCreatedDesc q).drop skip).take limit

end TaskDAO

namespace TaskService

/-- `TaskService.list_tasks` (src/db/service/task_service.py lines 129-162):
session refresh, then `TaskDAO.list_tasks` with the arguments passed through
unchanged — including a list-valued `status`. -/
def list_tasks (db : Db) (service_type service_name : Option String)
    (status : Option StatusArg) (skip limit : Nat) : List DbTask :=
  TaskDAO.list_tasks db service_type service_name status skip limit

end TaskService

/-- A provider task object returned by
`self._client.content_generation.tasks.get(task_id=...)`. -/
structure ProviderTaskResult where
  status : String
  video_url : String
  failure_reason : Option String
deriving Repr, DecidableEq

/-- The `status_mapping` dict of `get_video_task_result`
(src/ai_services/video/volcengine_video.py lines 224-232), with
`.get(status, "pending")` as the default. -/
def status_mapping (s : String) : String :=
  if s = "queued" then "pending"
  else if s = "running" then "running"
  else if s = "succeeded" then "completed"
  else if s = "failed" then "failed"
  else if s = "cancelled" then "failed"
  else "pending"

/-- `task_result.failure_reason or "未知错误"` — Python `or` on a possibly
missing / empty string. -/
def failureReasonOr : Option String → String
  | some s => if s = "" then "未知错误" else s
  | none => "未知错误"

/-- The OSS object key built in the finalization branch
(src/ai_services/video/volcengine_video.py line 249):
`f"videos/i_u.mp4"` with `i = int(time.time())` and
`u = uuid.uuid4().hex` spliced between the underscores.  It is built from
the wall clock and a fresh random UUID; the task id does not occur in it. -/
def volcOssObjectKey (now : Nat) (uuidHex : String) : String :=
  "videos/" ++ toString now ++ "_" ++ uuidHex ++ ".mp4"

/-- The video-info dict built for the completed fast path
(src/ai_services/video/volcengine_video.py lines 192-198). -/
structure VideoInfo where
  video_url : String
  object_key : Option String
deriving Repr, DecidableEq

/-- The response dict of `get_video_task_result`, as a record with optional
fields for the keys that are only present on some paths. -/
structure TaskResponse where
  task_id : String
  status : String
  created_at : Nat
  completed_at : Option Nat
  video_info : Option VideoInfo
  error : Option String
deriving Repr, DecidableEq

/-- Fast-path video info: `if db_task.result and "video_url" in db_task.result`
then a dict of `result.get("video_url")` and `result.get("object_key")`. -/
def fastPathVideoInfo : Option (List (String × String)) → Option VideoInfo
  | none => none
  | some r =>
      match r.lookup "video_url" with
      | some v => some ⟨v, r.lookup "object_key"⟩
      | none => none

/-- `except BusinessException: raise` / `except Exception as e: raise
BusinessException(code="VIDEO_TASK_RESULT_ERROR", ...)` — the outer handler of
`get_video_task_result` (src/ai_services/video/volcengine_video.py 300-309). -/
def wrapOuter : PyExc → PyExc
  | .biz e => .biz e
  | e => .biz ⟨"VIDEO_TASK_RESULT_ERROR", "获取视频生成任务结果失败: " ++ e.str⟩

/-- Result of one reconciler invocation: the value returned or the exception
raised, the store afterwards, and whether the provider poll
(`self._client.content_generation.tasks.get`) was executed. -/
structure ReconcileOutcome where
  response : Except PyExc TaskResponse
  db : Db
  providerCalled : Bool

/-- `VolcengineVideoService.get_video_task_result`
(src/ai_services/video/volcengine_video.py lines 160-309), the Reconciler.
`poll` stands for the Ark SDK call, `storageUpload` for
`upload_data(download_file_content(video_url), object_key, ...)`:
each is either the value the environment returns or the exception it raises. -/
def getVideoTaskResult (db : Db) (task_id : String)
    (poll : Except PyExc ProviderTaskResult)
    (storageUpload : Except PyExc String)
    (now : Nat) (uuidHex : String) : ReconcileOutcome :=
  match TaskService.get_task db task_id with
  | none =>
      -- raise BusinessException(code="TASK_NOT_FOUND", ...)
      ⟨.error (.biz ⟨"TASK_NOT_FOUND", "任务不存在: " ++ task_id⟩), db, false⟩
  | some db_task =>
    if db_task.status = "completed" then
      -- terminal fast path: only the literal status "completed" takes it
      ⟨.ok { task_id := task_id
             status := db_task.status
             created_at := db_task.created_at
             completed_at := db_task.completed_at
             video_info := fastPathVideoInfo db_task.result
             error := none }, db, false⟩
    else
      match db_task.task_specific_data.lookup "volcengine_task_id" with
      | none =>
          -- raise BusinessException(code="INVALID_TASK", ...)
          ⟨.error (.biz ⟨"INVALID_TASK",
            "无效的任务: " ++ task_id ++ "，缺少火山引擎任务ID"⟩), db, false⟩
      | some _volcengine_task_id =>
        match poll with
        | .error e => ⟨.error (wrapOuter e), db, true⟩
        | .ok task_result =>
          let our_status := status_mapping task_result.status
          let response : TaskResponse :=
            { task_id := task_id, status := our_status
              created_at := db_task.created_at
              completed_at := none, video_info := none, error := none }
          if our_status = "completed" then
            -- inner try: OSS save + DB update; `except Exception` on the block
            let object_key := volcOssObjectKey now uuidHex
            match storageUpload with
            | .error e =>
                ⟨.error (.biz ⟨"BUSINESS_ERROR",
                  "保存视频到OSS失败: " ++ e.str⟩), db, true⟩
            | .ok oss_url =>
              let video_info : VideoInfo := ⟨oss_url, some object_key⟩
              match TaskService.update_task db task_id "completed"
                  (some [("video_url", oss_url), ("object_key", object_key)])
                  none none with
              | (.error e, db1) =>
                  ⟨.error (.biz ⟨"BUSINESS_ERROR",
                    "保存视频到OSS失败: " ++ e.str⟩), db1, true⟩
              | (.ok _, db1) =>
                  ⟨.ok { response with video_info := some video_info }, db1, true⟩
          else if our_status = "failed" then
            let error_message := failureReasonOr task_result.failure_reason
            match TaskService.update_task db task_id "failed"
                none (some error_message) none with
            | (.error e, db1) => ⟨.error (wrapOuter e), db1, true⟩
            | (.ok _, db1) =>
                ⟨.ok { response with error := some error_message }, db1, true⟩
          else
            match TaskService.update_task db task_id our_status
                none none none with
            | (.error e, db1) => ⟨.error (wrapOuter e), db1, true⟩
            | (.ok _, db1) => ⟨.ok response, db1, true⟩

/-- Result of one scheduler sweep: the ids of the tasks for which the service
call was issued, and the store afterwards. -/
structure SweepOutcome where
  invoked : List String
  db : Db

namespace TaskScheduler

/-- The per-task loop of `TaskScheduler.check_video_tasks`
(src/scripts/task_scheduler.py lines 55-71): for each task of the batch,
look the service up in the registry (skip with a warning when absent),
call `service.get_video_task_result`, and catch any exception of the body
(`except Exception as e: logger.error(...)`) so the loop continues with the
next task. -/
def sweepBatch (db : Db) (batch : List DbTask) (hasService : String → Bool)
    (pollOf : DbTask → Except PyExc ProviderTaskResult)
    (uploadOf : DbTask → Except PyExc String)
    (now : Nat) (uuidHex : String) : SweepOutcome :=
  match batch with
  | [] => ⟨[], db⟩
  | t :: ts =>
      if hasService t.service_name then
        let o := getVideoTaskResult db t.task_id (pollOf t) (uploadOf t) now uuidHex
        -- whether o.response is ok or an exception, the loop moves on
        let rest := sweepBatch o.db ts hasService pollOf uploadOf now uuidHex
        ⟨t.task_id :: rest.invoked, rest.db⟩
      else
        let rest := sweepBatch db ts hasService pollOf uploadOf now uuidHex
        ⟨rest.invoked, rest.db⟩

/-- `TaskScheduler.check_video_tasks` (src/scripts/task_scheduler.py
lines 38-74): one tick lists
`task_service.list_tasks(service_type="video", status=["pending","running"],
limit=100)` and runs the per-task loop over the batch. -/
def check_video_tasks (db : Db) (hasService : String → Bool)
    (pollOf : DbTask → Except PyExc ProviderTaskResult)
    (uploadOf : DbTask → Except PyExc String)
    (now : Nat) (uuidHex : String) : SweepOutcome :=
  let pending_tasks := TaskService.list_tasks db (some "video") none
    (some (.many ["pending", "running"])) 0 100
  sweepBatch db pending_tasks hasService pollOf uploadOf now uuidHex

end TaskScheduler

/-- The `POST /video/task/result` handler (src/api/video/router.py lines
82-127): look the task up (`ResourceNotFoundException` when absent), look the
service up (`ResourceNotFoundException` when absent), then delegate to
`service.get_video_task_result`; a `BusinessException` from the service is
re-raised unchanged.  `normalize_response` only rewrites numeric `*_at`
fields and is the identity on this already-normalized record. -/
def routerGetVideoTaskResult (db : Db) (task_id : String)
    (hasService : String → Bool)
    (poll : Except PyExc ProviderTaskResult)
    (storageUpload : Except PyExc String)
    (now : Nat) (uuidHex : String) : Except PyExc TaskResponse × Db :=
  match TaskService.get_task db task_id with
  | none =>
      (.error (.biz ⟨"RESOURCE_NOT_FOUND", "任务 " ++ task_id ++ " 不存在"⟩), db)
  | some task =>
      if hasService task.service_name then
        let o := getVideoTaskResult db task_id poll storageUpload now uuidHex
        (o.response, o.db)
      else
        (.error (.biz ⟨"RESOURCE_NOT_FOUND",
          "视频生成服务 " ++ task.service_name ++ " 不存在"⟩), db)


/-! Concrete fixtures used by the closed theorems and witnesses below. -/

/-- A freshly created video task: status pending, provider correlation
stored in `task_specific_data` under `volcengine_task_id`. -/
def taskPendingRow : DbTask :=
  { task_id := "t1", service_type := "video", service_name := "volcengine"
    status := "pending", created_at := 100, completed_at := none
    result := none, error_message := none
    task_specific_data := [("volcengine_task_id", "ark-1")] }

/-- A store holding only the pending task. -/
def dbPending : Db := [taskPendingRow]

/-- The same task after a (hypothetical) provider-reported failure:
terminal status `failed`. -/
def taskFailedRow : DbTask :=
  { taskPendingRow with
      status := "failed", completed_at := some 160, error_message := some "boom" }

/-- A store holding only the failed task. -/
def dbFailed : Db := [taskFailedRow]

/-- The same task after successful finalization: terminal status `completed`
with a materialized result. -/
def taskCompletedRow : DbTask :=
  { taskPendingRow with
      status := "completed", completed_at := some 150,
      result := some [("video_url", "http://oss/a.mp4"), ("object_key", "videos/1_aa.mp4")] }

/-- A store holding only the completed task. -/
def dbCompleted : Db := [taskCompletedRow]

/-! Helper lemmas about the store primitives. -/

/-- A row returned by the first-match id query carries the queried id. -/
theorem findTask_eq_some_id {db : Db} {tid : String} {t : DbTask}
    (h : findTask db tid = some t) : t.task_id = tid := by
  induction db with
  | nil => simp [findTask] at h
  | cons u us ih =>
      by_cases hu : u.task_id = tid
      · simp [findTask, hu] at h; subst h; exact hu
      · simp [findTask, hu] at h; exact ih h

/-- Replacing every row of the queried id with a row of that same id makes the
first-match query return the replacement exactly when a row was found. -/
theorem findTask_map_replace {db : Db} {tid : String} {task : DbTask}
    (hid : task.task_id = tid) :
    findTask (db.map (fun t => if t.task_id = tid then task else t)) tid
      = (findTask db tid).map (fun _ => task) := by
  induction db with
  | nil => rfl
  | cons u us ih =>
      by_cases hu : u.task_id = tid
      · simp [findTask, hu, hid]
      · simp [findTask, hu, ih]

/-- The patched row always carries the status passed to the update. -/
theorem patchTask_status (t : DbTask) (st : String)
    (r : Option (List (String × String))) (em : Option String)
    (d : Option (List (String × String))) (now : Nat) :
    (TaskDAO.patchTask t st r em d now).status = st := by
  cases r <;> cases em <;> cases d <;>
    simp [TaskDAO.patchTask, apply_ite DbTask.status] <;>
    split <;> simp

/-- The patch never touches the task id. -/
theorem patchTask_task_id (t : DbTask) (st : String)
    (r : Option (List (String × String))) (em : Option String)
    (d : Option (List (String × String))) (now : Nat) :
    (TaskDAO.patchTask t st r em d now).task_id = t.task_id := by
  cases r <;> cases em <;> cases d <;>
    simp [TaskDAO.patchTask, apply_ite DbTask.task_id] <;>
    split <;> simp

/-- C2 counterexample: the claim says the store update verifies the caller's
expected status and applies nothing (returning failure) when another writer
already moved the task.  Here the task is already terminal (`completed`,
i.e. some other writer moved it), yet an update to `running` is applied and
reported as a success: the row regresses out of its terminal state. -/
theorem C2_counterexample_no_compare_and_set :
    taskCompletedRow.status = "completed"
    ∧ (TaskDAO.update_task_status dbCompleted "t1" "running" none none none 200).1.isSome = true
    ∧ (findTask (TaskDAO.update_task_status dbCompleted "t1" "running" none none none 200).2
        "t1").map DbTask.status = some "running" :=
  ⟨rfl, rfl, rfl⟩

/-- C2 (amended): `TaskDAO.update_task_status` is unconditional.  For every
store, id and argument combination it returns a row exactly when the id is
present, that row carries the new status regardless of the row's previous
status, and the committed store holds exactly the returned row under that id.
No expected-status check and no failure report exist. -/
theorem C2_amended_update_unconditional (db : Db) (task_id status : String)
    (result : Option (List (String × String))) (error_message : Option String)
    (task_specific_data : Option (List (String × String))) (now : Nat) :
    ((TaskDAO.update_task_status db task_id status result error_message
        task_specific_data now).1).map DbTask.status
      = (findTask db task_id).map (fun _ => status)
    ∧ findTask ((TaskDAO.update_task_status db task_id status result error_message
        task_specific_data now).2) task_id
      = (TaskDAO.update_task_status db task_id status result error_message
        task_specific_data now).1 := by
  unfold TaskDAO.update_task_status
  cases hfind : findTask db task_id with
  | none => simp [hfind]
  | some t =>
      refine ⟨by simp [hfind, patchTask_status], ?_⟩
      have hid : (TaskDAO.patchTask t status result error_message
          task_specific_data now).task_id = task_id := by
        rw [patchTask_task_id]; exact findTask_eq_some_id hfind
      simp [hfind, findTask_map_replace hid]

/-- C3: for every store and every argument combination,
`TaskService.update_task` raises `AttributeError` (TaskDAO has no attribute
`update_task`; the DAO defines only `update_task_status`) and leaves the
store unchanged, so no code path through it ever persists a status
transition. -/
theorem C3_update_task_always_attribute_error (db : Db) (task_id status : String)
    (result : Option (List (String × String))) (error_message : Option String)
    (task_specific_data : Option (List (String × String))) :
    TaskService.update_task db task_id status result error_message task_specific_data
      = (.error (.attributeError "type object TaskDAO has no attribute update_task"), db) :=
  rfl

/-- C7 counterexample: the claim says the storage key is deterministic from
the task id, so two materializations for the same task yield the same key.
The key builder does not even take the task id; two invocations for the same
task at clock second 1 with two fresh UUID hex values yield different keys. -/
theorem C7_counterexample_storage_key_not_deterministic :
    volcOssObjectKey 1 "0a1b" ≠ volcOssObjectKey 1 "0b2c" := by decide

/-- C7 (amended): the storage key is built from the wall clock and the fresh
random UUID hex only — the task id does not occur in it — and any two
invocations whose UUID hex values differ produce different keys, even at the
same clock second.  Finalization is therefore not idempotent at the storage
layer: repeated invocations for the same task write fresh objects. -/
theorem C7_amended_storage_key_depends_on_uuid (now : Nat) (u1 u2 : String)
    (h : u1 ≠ u2) : volcOssObjectKey now u1 ≠ volcOssObjectKey now u2 := by
  intro hk
  apply h
  have hd := congrArg String.data hk
  simp only [volcOssObjectKey, String.data_append] at hd
  exact String.ext (List.append_cancel_left (List.append_cancel_right hd))

/-- C7 witness: the amended theorem at clock second 7 and two concrete
UUID hex values. -/
theorem C7_amended_storage_key_depends_on_uuid_witness :
    volcOssObjectKey 7 "00aa" ≠ volcOssObjectKey 7 "00bb" :=
  C7_amended_storage_key_depends_on_uuid 7 "00aa" "00bb" (by decide)

/-- C1 counterexample: the claim says any task whose persisted status is
terminal (`completed`, `failed`, or `error`) is returned without a provider
call.  Here the persisted status is the terminal `failed`, yet the Reconciler
executes the provider poll: only the literal status `completed` guards the
fast path. -/
theorem C1_counterexample_failed_task_polls_provider :
    taskFailedRow.status = "failed"
    ∧ (getVideoTaskResult dbFailed "t1" (.ok ⟨"failed", "", some "mock reason"⟩)
        (.ok "http://oss/a.mp4") 200 "aabb").providerCalled = true :=
  ⟨rfl, rfl⟩

/-- C1 (amended): only a task persisted as `completed` takes the terminal
fast path — the Reconciler then returns the stored record (status, stored
result, completion time) without executing the provider poll and leaves the
store unchanged.  Tasks persisted as `failed` or `error` do not take it and
are polled again, as the counterexample shows. -/
theorem C1_amended_completed_fast_path (db : Db) (tid : String) (t : DbTask)
    (poll : Except PyExc ProviderTaskResult) (storageUpload : Except PyExc String)
    (now : Nat) (uuidHex : String)
    (hfind : findTask db tid = some t) (hstatus : t.status = "completed") :
    getVideoTaskResult db tid poll storageUpload now uuidHex
      = ⟨.ok { task_id := tid, status := t.status, created_at := t.created_at,
               completed_at := t.completed_at,
               video_info := fastPathVideoInfo t.result, error := none },
         db, false⟩ := by
  unfold getVideoTaskResult TaskService.get_task TaskDAO.get_task_by_id
  rw [hfind]
  simp [hstatus]

/-- C1 witness: the amended fast-path theorem applied to the concrete
completed task, with an arbitrary poll answer standing by unused. -/
theorem C1_amended_completed_fast_path_witness :
    getVideoTaskResult dbCompleted "t1" (.ok ⟨"queued", "", none⟩)
        (.ok "http://oss/a.mp4") 200 "aabb"
      = ⟨.ok { task_id := "t1", status := taskCompletedRow.status,
               created_at := taskCompletedRow.created_at,
               completed_at := taskCompletedRow.completed_at,
               video_info := fastPathVideoInfo taskCompletedRow.result, error := none },
         dbCompleted, false⟩ :=
  C1_amended_completed_fast_path dbCompleted "t1" taskCompletedRow
    (.ok ⟨"queued", "", none⟩) (.ok "http://oss/a.mp4") 200 "aabb" rfl rfl

/-- C4: the code evaluated at the spec's Scenario B input.  A pending task is
polled and the provider reports `failed`, so the code reaches
`self._task_service.update_task(task_id, status="failed", error_message=...)`
— which raises `AttributeError` (claim C3), caught by the outer handler and
re-raised as a `VIDEO_TASK_RESULT_ERROR` business exception.  Nothing is
persisted: the row keeps `status=pending`, `result=None`,
`error_message=None`, contradicting the claimed final row
`status=failed` with a non-empty `error_message`. -/
theorem C4_provider_failed_poll_persists_nothing :
    (getVideoTaskResult dbPending "t1" (.ok ⟨"failed", "", some "mock reason"⟩)
        (.ok "http://oss/a.mp4") 200 "aabb").response
      = .error (.biz ⟨"VIDEO_TASK_RESULT_ERROR",
          "获取视频生成任务结果失败: type object TaskDAO has no attribute update_task"⟩)
    ∧ (getVideoTaskResult dbPending "t1" (.ok ⟨"failed", "", some "mock reason"⟩)
        (.ok "http://oss/a.mp4") 200 "aabb").db = dbPending
    ∧ (findTask dbPending "t1").map DbTask.status = some "pending"
    ∧ (findTask dbPending "t1").map DbTask.error_message = some none :=
  ⟨rfl, rfl, rfl, rfl⟩

/-- C5 counterexample: the claim says a permanent finalization failure leaves
the row with terminal status `error`.  Here the provider reports `succeeded`
and the asset fetch fails permanently (HTTP 404, wrapped by
`download_file_content` into a business exception), yet the Reconciler just
re-raises a `保存视频到OSS失败` business exception and persists nothing — the
row keeps status `pending`, and no write of status `error` exists anywhere in
the function. -/
theorem C5_counterexample_no_error_status_persisted :
    (getVideoTaskResult dbPending "t1" (.ok ⟨"succeeded", "http://ark/v.mp4", none⟩)
        (.error (.biz ⟨"BUSINESS_ERROR", "下载文件失败: HTTP状态码 404"⟩)) 200 "aabb").response
      = .error (.biz ⟨"BUSINESS_ERROR", "保存视频到OSS失败: 下载文件失败: HTTP状态码 404"⟩)
    ∧ (findTask (getVideoTaskResult dbPending "t1"
        (.ok ⟨"succeeded", "http://ark/v.mp4", none⟩)
        (.error (.biz ⟨"BUSINESS_ERROR", "下载文件失败: HTTP状态码 404"⟩)) 200 "aabb").db
        "t1").map DbTask.status = some "pending" :=
  ⟨rfl, rfl⟩

/-- C5 (amended): when the provider reports success but the finalization step
(asset download + durable upload) raises, the Reconciler raises a
`保存视频到OSS失败` business exception and persists nothing: the store is
returned unchanged, so the row keeps whatever non-terminal status it had —
no terminal status `error` (nor any other status) is written. -/
theorem C5_amended_finalization_failure_persists_nothing (db : Db) (tid vid : String)
    (t : DbTask) (tr : ProviderTaskResult) (e : PyExc) (now : Nat) (uuidHex : String)
    (hfind : findTask db tid = some t) (hnc : t.status ≠ "completed")
    (hvid : t.task_specific_data.lookup "volcengine_task_id" = some vid)
    (htr : tr.status = "succeeded") :
    getVideoTaskResult db tid (.ok tr) (.error e) now uuidHex
      = ⟨.error (.biz ⟨"BUSINESS_ERROR", "保存视频到OSS失败: " ++ e.str⟩), db, true⟩ := by
  unfold getVideoTaskResult TaskService.get_task TaskDAO.get_task_by_id
  rw [hfind]
  simp [hnc, hvid, htr, status_mapping]

/-- C5 witness: the amended theorem at the concrete pending task with a
permanently failing download. -/
theorem C5_amended_finalization_failure_persists_nothing_witness :
    getVideoTaskResult dbPending "t1" (.ok ⟨"succeeded", "http://ark/v.mp4", none⟩)
        (.error (.other "404 not found")) 200 "aabb"
      = ⟨.error (.biz ⟨"BUSINESS_ERROR", "保存视频到OSS失败: 404 not found"⟩),
         dbPending, true⟩ :=
  C5_amended_finalization_failure_persists_nothing dbPending "t1" "ark-1"
    taskPendingRow ⟨"succeeded", "http://ark/v.mp4", none⟩ (.other "404 not found")
    200 "aabb" rfl (by decide) rfl rfl

/-- C8: when the provider poll call itself raises (an SDK/network error, not
a provider-reported job failure), the Reconciler writes nothing — the store
is returned unchanged, so status, result and error_message keep their
persisted values — and the error propagates to the caller, wrapped by the
outer handler into a `VIDEO_TASK_RESULT_ERROR` business exception. -/
theorem C8_poll_error_writes_nothing_and_propagates (db : Db) (tid vid m : String)
    (t : DbTask) (storageUpload : Except PyExc String) (now : Nat) (uuidHex : String)
    (hfind : findTask db tid = some t) (hnc : t.status ≠ "completed")
    (hvid : t.task_specific_data.lookup "volcengine_task_id" = some vid) :
    getVideoTaskResult db tid (.error (.other m)) storageUpload now uuidHex
      = ⟨.error (.biz ⟨"VIDEO_TASK_RESULT_ERROR",
          "获取视频生成任务结果失败: " ++ m⟩), db, true⟩ := by
  unfold getVideoTaskResult TaskService.get_task TaskDAO.get_task_by_id
  rw [hfind]
  simp [hnc, hvid, wrapOuter, PyExc.str]

/-- C8 witness: a network timeout while polling the concrete pending task. -/
theorem C8_poll_error_writes_nothing_and_propagates_witness :
    getVideoTaskResult dbPending "t1" (.error (.other "connection timed out"))
        (.ok "http://oss/a.mp4") 200 "aabb"
      = ⟨.error (.biz ⟨"VIDEO_TASK_RESULT_ERROR",
          "获取视频生成任务结果失败: connection timed out"⟩), dbPending, true⟩ :=
  C8_poll_error_writes_nothing_and_propagates dbPending "t1" "ark-1"
    "connection timed out" taskPendingRow (.ok "http://oss/a.mp4") 200 "aabb"
    rfl (by decide) rfl

/-- C9: the code evaluated at the two inputs of the claim.  For an id absent
from the store, the router raises `RESOURCE_NOT_FOUND` — that half of the
claim matches the code.  But for an id that exists and is not yet finished
(persisted `pending`, provider reports `queued`), the query path does not
return the current status: the status write reaches
`TaskService.update_task`, which raises `AttributeError` (claim C3), and the
caller receives a `VIDEO_TASK_RESULT_ERROR` business exception instead of a
response. -/
theorem C9_router_raises_for_unfinished_task :
    routerGetVideoTaskResult dbPending "missing" (fun _ => true)
        (.ok ⟨"queued", "", none⟩) (.ok "http://oss/a.mp4") 200 "aabb"
      = (.error (.biz ⟨"RESOURCE_NOT_FOUND", "任务 missing 不存在"⟩), dbPending)
    ∧ routerGetVideoTaskResult dbPending "t1" (fun _ => true)
        (.ok ⟨"queued", "", none⟩) (.ok "http://oss/a.mp4") 200 "aabb"
      = (.error (.biz ⟨"VIDEO_TASK_RESULT_ERROR",
          "获取视频生成任务结果失败: type object TaskDAO has no attribute update_task"⟩),
         dbPending) :=
  ⟨rfl, rfl⟩

/-- The status filter with a list argument admits no row: the DAO compares
the scalar status column with the list value itself. -/
theorem applyStatusFilter_many_nil (q : List DbTask) (s : String) (ss : List String) :
    applyStatusFilter q (some (.many (s :: ss))) = [] := by
  simp [applyStatusFilter, List.filter_eq_nil_iff]

/-- C6: the code evaluated at every store.  The scheduler tick passes
`status=["pending", "running"]` down to `TaskDAO.list_tasks`, whose filter is
the equality `Task.status == status`; a row's scalar status never equals the
list, so the query returns no rows and the tick invokes the Reconciler for
no task at all — in particular not for any pending or running video task the
store holds, and the store is left untouched. -/
theorem C6_scheduler_tick_reconciles_no_tasks (db : Db) (hasService : String → Bool)
    (pollOf : DbTask → Except PyExc ProviderTaskResult)
    (uploadOf : DbTask → Except PyExc String) (now : Nat) (uuidHex : String) :
    (TaskScheduler.check_video_tasks db hasService pollOf uploadOf now uuidHex).invoked = []
    ∧ (TaskScheduler.check_video_tasks db hasService pollOf uploadOf now uuidHex).db = db := by
  have hempty : TaskService.list_tasks db (some "video") none
      (some (.many ["pending", "running"])) 0 100 = [] := by
    unfold TaskService.list_tasks TaskDAO.list_tasks
    simp only [applyStatusFilter_many_nil]
    rfl
  unfold TaskScheduler.check_video_tasks
  rw [hempty]
  exact ⟨rfl, rfl⟩

/-- C10: per-task failure isolation in the scheduler sweep.  For every batch
and every environment — in particular environments whose provider call
raises for some of the tasks — the set of tasks on which the sweep invokes
`get_video_task_result` is exactly the batch filtered to registered
services, in order: an exception from one task's reconciliation (caught by
the per-task `except Exception` handler) never prevents the invocation for
any later task, and earlier tasks were already invoked.  Instantiating the
batch with three tasks and a `pollOf` that throws on the second yields the
spec's Scenario E. -/
theorem C10_sweep_isolates_per_task_failures (db : Db) (batch : List DbTask)
    (hasService : String → Bool)
    (pollOf : DbTask → Except PyExc ProviderTaskResult)
    (uploadOf : DbTask → Except PyExc String) (now : Nat) (uuidHex : String) :
    (TaskScheduler.sweepBatch db batch hasService pollOf uploadOf now uuidHex).invoked
      = (batch.filter (fun t => hasService t.service_name)).map
          (fun t => t.task_id) := by
  induction batch generalizing db with
  | nil => rfl
  | cons t ts ih =>
      by_cases h : hasService t.service_name
      · simp [TaskScheduler.sweepBatch, h, ih]
      · simp [TaskScheduler.sweepBatch, h, ih]
